import Mathlib

/-!
# Content Publication & External-Asset Lifecycle — verification development

Shallow embedding of the publishable-entity controllers of an administrative
content-management API (samples, blogs, services/sections, testimonials).
Each definition mirrors one controller function or one shared code fragment:

* `slugify` — the slug pipeline `title.toLowerCase()
  .replace(/[^a-zA-Z0-9\s]/g, "").replace(/\s+/g, "-")` repeated in every
  create/update handler;
* `createSample` / `updateSample` — the sample create and update handlers,
  with the Cloudinary upload modelled as an oracle argument
  (`Except Unit String`: `.ok url` = upload resolved with `secure_url`,
  `.error ()` = upload threw) and the externally visible side effects
  (successful upload, old-blob delete, DB save) recorded in an event trace;
* `toggleSampleStatus`, `toggleBlogStatus`, `toggleServiceStatus` — the
  status-toggle handlers;
* `getSamples` / `getServices` — the role-aware list query builders
  (sorting is omitted: it permutes the result order only and no theorem
  below depends on order);
* `createTestimonial` / `updateTestimonial` — the testimonial handlers;
* `deleteSection` — the service-section delete handler with its
  referencing-services guard.

Databases are lists of documents; `_id` is a `Nat`.  JavaScript
truthiness of an optional string / number field is modelled explicitly
(`""` and `0` are falsy, absent is `none`).
-/

namespace StrDra

/-- Caller roles as checked by the handlers (`user?.role === "Admin" ||
user?.role === "Super_Admin"`). `none` is an unauthenticated caller. -/
inductive Role where
  | user
  | admin
  | superAdmin
deriving DecidableEq, Repr

/-- The elevated-caller check `user?.role === "Admin" || user?.role === "Super_Admin"`. -/
def isElevated : Option Role → Bool
  | some .admin => true
  | some .superAdmin => true
  | _ => false

/-- `ESampleStatus` (= `EBlogStatus`): `"Draft" | "Published" | "Archived"`. -/
inductive SampleStatus where
  | draft
  | published
  | archived
deriving DecidableEq, Repr

/-- The string stored in Mongo for a `SampleStatus` value. -/
def SampleStatus.toStr : SampleStatus → String
  | .draft => "Draft"
  | .published => "Published"
  | .archived => "Archived"

/-- `EServiceStatus`: `"Draft" | "Live" | "Inactive" | "Coming_Soon"`. -/
inductive ServiceStatus where
  | draft
  | live
  | inactive
  | comingSoon
deriving DecidableEq, Repr

/-- The string stored in Mongo for a `ServiceStatus` value. -/
def ServiceStatus.toStr : ServiceStatus → String
  | .draft => "Draft"
  | .live => "Live"
  | .inactive => "Inactive"
  | .comingSoon => "Coming_Soon"

/-! ## JavaScript-truthiness helpers -/

/-- `x || cur` for an optional string request field: absent or `""` keeps `cur`. -/
def orStr (inp : Option String) (cur : String) : String :=
  match inp with
  | none => cur
  | some s => if s = "" then cur else s

/-- `x || cur` for an optional numeric request field: absent or `0` keeps `cur`. -/
def orNat (inp : Option Nat) (cur : Nat) : Nat :=
  match inp with
  | none => cur
  | some n => if n = 0 then cur else n

/-- `if (x) query.f = x` for a string query parameter: a constraint is added
only when the parameter is present and non-empty. -/
def truthyOpt (inp : Option String) : Option String :=
  match inp with
  | none => none
  | some s => if s = "" then none else some s

/-- `parseInt(x) || d`: an absent / NaN / zero parameter falls back to `d`. -/
def natOr (inp : Option Nat) (d : Nat) : Nat :=
  match inp with
  | none => d
  | some n => if n = 0 then d else n

/-- `needle` occurs as a prefix of `hay`. -/
def startsWithChars : List Char → List Char → Bool
  | [], _ => true
  | _ :: _, [] => false
  | n :: ns, h :: hs => n == h && startsWithChars ns hs

/-- JavaScript `s.startsWith(p)`. -/
def jsStartsWith (s p : String) : Bool :=
  startsWithChars p.data s.data

/-! ## SlugGenerator

The slug pipeline appearing verbatim in every create/update handler:

```
title.toLowerCase().replace(/[^a-zA-Z0-9\s]/g, "").replace(/\s+/g, "-")
```

Characters are treated individually; `Char.toLower` agrees with the
JavaScript `toLowerCase` on ASCII, and `jsWhitespace` is the `\s` class. -/

/-- The JavaScript regex `\s` character class (`\t\n\v\f\r`, space, NBSP and
the Unicode space separators), written over code points. -/
def jsWhitespace (c : Char) : Bool :=
  (9 ≤ c.toNat && c.toNat ≤ 13) || c.toNat = 32 ||
  c.toNat = 0xA0 || c.toNat = 0x1680 ||
  (0x2000 ≤ c.toNat && c.toNat ≤ 0x200A) ||
  c.toNat = 0x2028 || c.toNat = 0x2029 || c.toNat = 0x202F ||
  c.toNat = 0x205F || c.toNat = 0x3000 || c.toNat = 0xFEFF

/-- The character class `[a-zA-Z0-9]` of the strip regex, over code points
(`a` = 97, `z` = 122, `A` = 65, `Z` = 90, `0` = 48, `9` = 57). -/
def isAsciiAlnum (c : Char) : Bool :=
  (97 ≤ c.toNat && c.toNat ≤ 122) || (65 ≤ c.toNat && c.toNat ≤ 90) ||
  (48 ≤ c.toNat && c.toNat ≤ 57)

/-- `.replace(/[^a-zA-Z0-9\s]/g, "")`: drop every character outside
`[a-zA-Z0-9\s]`. -/
def stripNonAlnumSpace (l : List Char) : List Char :=
  l.filter (fun c => isAsciiAlnum c || jsWhitespace c)

/-- Worker for `.replace(/\s+/g, "-")`: `prevWs` records whether the previous
character belonged to a whitespace run that has already emitted its hyphen. -/
def collapseAux : Bool → List Char → List Char
  | _, [] => []
  | prevWs, c :: rest =>
    if jsWhitespace c then
      if prevWs then collapseAux true rest
      else '-' :: collapseAux true rest
    else c :: collapseAux false rest

/-- `.replace(/\s+/g, "-")`: each maximal whitespace run becomes one hyphen. -/
def collapseWs (l : List Char) : List Char := collapseAux false l

/-- The slug generator shared by every create/update handler. -/
def slugify (title : String) : String :=
  ⟨collapseWs (stripNonAlnumSpace (title.data.map Char.toLower))⟩

example : slugify "Intro to Testing!" = "intro-to-testing" := by decide
example : slugify "  A  - b  " = "-a-b-" := by decide
example : slugify "Ça va? Très bien" = "a-va-trs-bien" := by decide

/-! ## Sample documents (`sample.model.ts` / `ISample`)

`contentUrl` is `Option String` because the handlers branch on
`sample.contentUrl && …`; FAQ entries are (question, answer) pairs.  The
schema has no `content` path, so `sample.content` is `undefined` at runtime
(the update handler nevertheless compares against it, see `updateSample`). -/

structure SampleDoc where
  id : Nat
  title : String
  subtitle : String
  description : String
  slug : String
  contentUrl : Option String
  subject : String
  topic : String
  academicLevel : String
  wordCount : Nat
  referenceCount : Nat
  faqs : List (String × String)
  status : SampleStatus
deriving DecidableEq, Repr

/-- `Sample.findById(id)`. -/
def findSample (db : List SampleDoc) (id : Nat) : Option SampleDoc :=
  db.find? (fun d => d.id == id)

/-- `sample.save()` after in-place mutation: replace the document with this `_id`. -/
def saveSample (db : List SampleDoc) (d : SampleDoc) : List SampleDoc :=
  db.map (fun e => if e.id == d.id then d else e)

/-- Externally visible side effects of a mutating handler, in call order. -/
inductive Ev where
  /-- `cloudinary.uploader.upload(...)` resolved for the new content blob. -/
  | uploadNew
  /-- `cloudinaryUtils.deleteFile(oldPublicId, "raw")` for the superseded blob. -/
  | deleteOld
  /-- the database write (`sample.save()`). -/
  | persist
deriving DecidableEq, Repr

/-- Outcome of a mutating handler; `ok d` carries the document returned in
the 200 response body. -/
inductive UpdResult where
  | notFound
  | conflict
  | uploadError
  | ok (d : SampleDoc)
deriving DecidableEq, Repr

/-! ### createSample -/

/-- Request body of `createSample` (the handler never reads a status field). -/
structure SampleCreateInput where
  title : String
  subtitle : String
  description : String
  content : Option String
  subject : String
  topic : String
  academicLevel : String
  wordCount : Nat
  referenceCount : Nat
  faqs : List (String × String)
deriving DecidableEq, Repr

/-- Outcome of `createSample`; `created d` carries the 201 response document. -/
inductive CreateResult where
  | conflict
  | uploadError
  | created (d : SampleDoc)
deriving DecidableEq, Repr

/-- Content handling of `createSample` (lines 46–68): `if (content)` — truthy
check — then either keep a URL-shaped value as-is or upload, with the upload
outcome supplied by the `upload` oracle.  Returns the computed `contentUrl`. -/
def contentCreateStep (content : Option String) (upload : Except Unit String) :
    Except Unit (Option String) :=
  match content with
  | none => .ok none
  | some c =>
    if c = "" then .ok none
    else if jsStartsWith c "http" then .ok (some c)
    else
      match upload with
      | .error e => .error e
      | .ok url => .ok (some url)

/-- The `createSample` handler: slug generation, slug-uniqueness check,
optional content upload, then persist with status hard-coded to `Draft`. -/
def createSample (db : List SampleDoc) (inp : SampleCreateInput)
    (upload : Except Unit String) (newId : Nat) :
    List SampleDoc × CreateResult :=
  let slug := slugify inp.title
  if db.any (fun e => e.slug == slug) then (db, .conflict)
  else
    match contentCreateStep inp.content upload with
    | .error _ => (db, .uploadError)
    | .ok contentUrl =>
      let d : SampleDoc :=
        { id := newId, title := inp.title, subtitle := inp.subtitle,
          description := inp.description, slug := slug, contentUrl := contentUrl,
          subject := inp.subject, topic := inp.topic,
          academicLevel := inp.academicLevel, wordCount := inp.wordCount,
          referenceCount := inp.referenceCount, faqs := inp.faqs,
          status := .draft }
      (db ++ [d], .created d)

/-! ### updateSample -/

/-- Request body of `updateSample`; `none` models an absent (`undefined`) field. -/
structure SampleUpdateInput where
  title : Option String
  subtitle : Option String
  description : Option String
  content : Option String
  subject : Option String
  topic : Option String
  academicLevel : Option String
  wordCount : Option Nat
  referenceCount : Option Nat
  faqs : Option (List (String × String))
  status : Option SampleStatus
deriving DecidableEq, Repr

/-- Lines 234–254 of `updateSample`: `if (title && title !== sample.title)`
regenerate the slug and check uniqueness excluding the document itself
(`_id: { $ne: id }`); `none` signals the Conflict early return. -/
def slugUpdateStep (db : List SampleDoc) (id : Nat) (s0 : SampleDoc)
    (title : Option String) : Option SampleDoc :=
  match title with
  | none => some s0
  | some t =>
    if t ≠ "" ∧ t ≠ s0.title then
      let newSlug := slugify t
      if db.any (fun e => e.slug == newSlug && e.id != id) then none
      else some { s0 with slug := newSlug }
    else some s0

/-- Lines 256–283 of `updateSample`: `let contentUrl = content`; if content is
supplied and is not URL-shaped (`sample.content` is `undefined`, so
`content !== sample.content` adds nothing beyond `content !== undefined`),
upload it, then delete the old blob when `sample.contentUrl` starts with
`http` — all before the DB write.  `none` signals the upload-error early
return; otherwise the local `contentUrl` value and the emitted events. -/
def contentUpdateStep (s1 : SampleDoc) (content : Option String)
    (upload : Except Unit String) : Option (Option String × List Ev) :=
  match content with
  | none => some (none, [])
  | some c =>
    if jsStartsWith c "http" then some (some c, [])
    else
      match upload with
      | .error _ => none
      | .ok url =>
        if jsStartsWith (s1.contentUrl.getD "") "http" then
          some (some url, [.uploadNew, .deleteOld])
        else
          some (some url, [.uploadNew])

/-- Lines 285–288 of `updateSample`: `if (contentUrl !== undefined)
sample.contentUrl = contentUrl`. -/
def applyContentUrl (s : SampleDoc) (cu : Option String) : SampleDoc :=
  match cu with
  | some u => { s with contentUrl := some u }
  | none => s

/-- The `updateSample` handler (lines 209–321): load, slug step, content step,
`||`-style partial field updates, admin-gated status assignment, save. -/
def updateSample (db : List SampleDoc) (id : Nat) (inp : SampleUpdateInput)
    (user : Option Role) (upload : Except Unit String) :
    List SampleDoc × UpdResult × List Ev :=
  match findSample db id with
  | none => (db, .notFound, [])
  | some s0 =>
    match slugUpdateStep db id s0 inp.title with
    | none => (db, .conflict, [])
    | some s1 =>
      match contentUpdateStep s1 inp.content upload with
      | none => (db, .uploadError, [])
      | some (contentUrl, evs) =>
        let s2 := applyContentUrl s1 contentUrl
        let s3 : SampleDoc :=
          { s2 with
            title := orStr inp.title s2.title,
            subtitle := orStr inp.subtitle s2.subtitle,
            description := orStr inp.description s2.description,
            subject := orStr inp.subject s2.subject,
            topic := orStr inp.topic s2.topic,
            academicLevel := orStr inp.academicLevel s2.academicLevel,
            wordCount := orNat inp.wordCount s2.wordCount,
            referenceCount := orNat inp.referenceCount s2.referenceCount,
            faqs := inp.faqs.getD s2.faqs,
            status :=
              match inp.status with
              | some st => if isElevated user then st else s2.status
              | none => s2.status }
        (saveSample db s3, .ok s3, evs ++ [.persist])

/-! ### toggle / archive -/

/-- Outcome of a toggle handler; `ok` carries the `{_id, status}` projection
the handler returns (`new: true`). -/
inductive ToggleResult where
  | notFound
  | illegal
  | ok
deriving DecidableEq, Repr

/-- `toggleSampleStatus` (lines 413–472): refuse on `Archived`, otherwise flip
`Draft ⇄ Published` through `findByIdAndUpdate(id, { status: newStatus })`
— only the status path is written. -/
def toggleSampleStatus (db : List SampleDoc) (id : Nat) :
    List SampleDoc × ToggleResult × Option SampleDoc :=
  match findSample db id with
  | none => (db, .notFound, none)
  | some s =>
    if s.status = .archived then (db, .illegal, none)
    else
      let newStatus := if s.status = .published then SampleStatus.draft else .published
      (db.map (fun e => if e.id == id then { e with status := newStatus } else e),
       .ok, some { s with status := newStatus })

/-! ## Blog documents (`blog.model.ts` / `IBlog`), restricted to the paths the
status handlers touch: `status` and `datePublished` (instants are `Nat`). -/

structure BlogDoc where
  id : Nat
  status : SampleStatus
  datePublished : Option Nat
deriving DecidableEq, Repr

/-- `toggleBlogStatus` (lines 1027–1086): refuse on `Archived`, otherwise flip
`Draft ⇄ Published` through `findByIdAndUpdate(id, { status: newStatus })`;
no other path — in particular not `datePublished` — is written. -/
def toggleBlogStatus (db : List BlogDoc) (id : Nat) :
    List BlogDoc × ToggleResult × Option BlogDoc :=
  match db.find? (fun b => b.id == id) with
  | none => (db, .notFound, none)
  | some b =>
    if b.status = .archived then (db, .illegal, none)
    else
      let newStatus := if b.status = .published then SampleStatus.draft else .published
      (db.map (fun e => if e.id == id then { e with status := newStatus } else e),
       .ok, some { b with status := newStatus })

/-- Lines 966–973 of `updateBlog`: `if (status && isAdmin)` assign the status
and stamp `datePublished = new Date()` only when publishing for the first
time (`status === PUBLISHED && !blog.datePublished`). -/
def updateBlogStatusStep (b : BlogDoc) (status : Option SampleStatus)
    (user : Option Role) (now : Nat) : BlogDoc :=
  match status with
  | none => b
  | some st =>
    if isElevated user then
      let b1 := { b with status := st }
      if st = .published ∧ b.datePublished = none then
        { b1 with datePublished := some now }
      else b1
    else b

/-! ## Testimonial documents (`testimonials.model.ts`); `status` is a plain
string constrained by the schema enum `["draft","published","archived"]`. -/

structure TestimonialDoc where
  id : Nat
  name : String
  content : String
  stars : Nat
  location : String
  imageUrl : Option String
  status : String
  forHomepage : Bool
deriving DecidableEq, Repr

/-- Request body of `createTestimonial`; `stars` is `none` when absent. -/
structure TestimonialCreateInput where
  name : String
  content : String
  stars : Option Nat
  location : String
  forHomepage : Bool
  status : Option String
  imageFile : Option String
deriving DecidableEq, Repr

/-- `createTestimonial` (part_004 lines 6–48): validate
`!stars || stars < 1 || stars > 5`, then persist with
`status: status || "draft"` and `forHomepage: forHomepage || false`. -/
def createTestimonial (inp : TestimonialCreateInput) (newId : Nat) :
    Except Unit TestimonialDoc :=
  match inp.stars with
  | none => .error ()
  | some s =>
    if s < 1 ∨ s > 5 then .error ()
    else
      .ok { id := newId, name := inp.name, content := inp.content, stars := s,
            location := inp.location, imageUrl := inp.imageFile,
            status := orStr inp.status "draft",
            forHomepage := inp.forHomepage }

/-- Request body of `updateTestimonial`. -/
structure TestimonialUpdateInput where
  name : Option String
  content : Option String
  stars : Option Nat
  location : Option String
  forHomepage : Option Bool
  status : Option String
  imageFile : Option String
deriving DecidableEq, Repr

/-- Outcome of `updateTestimonial`. -/
inductive TUpdResult where
  | notFound
  | invalidStars
  | ok (d : TestimonialDoc)
deriving DecidableEq, Repr

/-- Image swap, field assignments and save of `updateTestimonial`
(part_004 lines 180–201).  Note the mixed update styles:
`name`/`content`/`status` use `x || existing` (empty string keeps the stored
value) while `stars`/`location`/`forHomepage` use
`x !== undefined ? x : existing` (an explicitly supplied empty string is
stored). -/
def updateTestimonialFields (db : List TestimonialDoc) (id : Nat)
    (inp : TestimonialUpdateInput) (t0 : TestimonialDoc) :
    List TestimonialDoc × TUpdResult :=
  let t1 := match inp.imageFile with
    | some p => { t0 with imageUrl := some p }
    | none => t0
  let t2 : TestimonialDoc :=
    { t1 with
      name := orStr inp.name t1.name,
      content := orStr inp.content t1.content,
      stars := inp.stars.getD t1.stars,
      location := inp.location.getD t1.location,
      forHomepage := inp.forHomepage.getD t1.forHomepage,
      status := orStr inp.status t1.status }
  (db.map (fun e => if e.id == id then t2 else e), .ok t2)

/-- `updateTestimonial` (part_004 lines 159–215): load, validate a supplied
stars value, then apply the partial field updates. -/
def updateTestimonial (db : List TestimonialDoc) (id : Nat)
    (inp : TestimonialUpdateInput) : List TestimonialDoc × TUpdResult :=
  match db.find? (fun d => d.id == id) with
  | none => (db, .notFound)
  | some t0 =>
    match inp.stars with
    | some s =>
      if s < 1 ∨ s > 5 then (db, .invalidStars)
      else updateTestimonialFields db id inp t0
    | none => updateTestimonialFields db id inp t0

/-! ## Service & section documents (`service.model.ts`), restricted to the
paths the listed claims touch. -/

structure ServiceDoc where
  id : Nat
  /-- the `section` reference of the schema (`section` is reserved in Lean). -/
  sectionId : Nat
  title : String
  subtitle : String
  description : String
  slug : String
  contentUrl : Option String
  order : Nat
  status : ServiceStatus
deriving DecidableEq, Repr

structure SectionDoc where
  id : Nat
  name : String
  description : String
  slug : String
  order : Nat
deriving DecidableEq, Repr

/-- `toggleServiceStatus` (part_005 lines 624–683): refuse on `Inactive` and
`Coming_Soon`, otherwise flip `Draft ⇄ Live` through
`findByIdAndUpdate(id, { status: newStatus })`. -/
def toggleServiceStatus (db : List ServiceDoc) (id : Nat) :
    List ServiceDoc × ToggleResult × Option ServiceDoc :=
  match db.find? (fun s => s.id == id) with
  | none => (db, .notFound, none)
  | some s =>
    if s.status = .inactive ∨ s.status = .comingSoon then (db, .illegal, none)
    else
      let newStatus := if s.status = .live then ServiceStatus.draft else .live
      (db.map (fun e => if e.id == id then { e with status := newStatus } else e),
       .ok, some { s with status := newStatus })

/-- Outcome of `deleteSection`. -/
inductive SectionDeleteResult where
  | hasServices
  | notFound
  | ok
deriving DecidableEq, Repr

/-- `deleteSection` (part_005 lines 139–171): first count the services whose
`section` field references this id and refuse when any exist; only then
`findByIdAndDelete`. -/
def deleteSection (sections : List SectionDoc) (services : List ServiceDoc)
    (id : Nat) : List SectionDoc × SectionDeleteResult :=
  let servicesCount := (services.filter (fun s => s.sectionId == id)).length
  if servicesCount > 0 then (sections, .hasServices)
  else
    match sections.find? (fun s => s.id == id) with
    | none => (sections, .notFound)
    | some _ => (sections.eraseP (fun s => s.id == id), .ok)

/-! ## QueryPlanner: the role-aware list queries -/

/-- Query parameters of `getSamples`; `page`/`limit` are already through
`parseInt` (`none` = absent or NaN). -/
structure SampleListParams where
  subject : Option String
  topic : Option String
  academicLevel : Option String
  status : Option String
  page : Option Nat
  limit : Option Nat
deriving DecidableEq, Repr

/-- The Mongo filter object `getSamples` assembles. -/
structure SampleQuery where
  subject : Option String
  topic : Option String
  academicLevel : Option String
  status : Option String
deriving DecidableEq, Repr

/-- Filter construction of `getSamples` (lines 102–126): `if (x) query.x = x`
per facet; the destructuring default `status = ESampleStatus.PUBLISHED`
applies only when the parameter is absent; admins get `if (status)
query.status = status`, everyone else is forced to `"Published"`. -/
def buildSampleQuery (p : SampleListParams) (user : Option Role) : SampleQuery :=
  { subject := truthyOpt p.subject,
    topic := truthyOpt p.topic,
    academicLevel := truthyOpt p.academicLevel,
    status :=
      if isElevated user then truthyOpt (some (p.status.getD "Published"))
      else some "Published" }

/-- Whether a sample document satisfies the assembled filter. -/
def sampleMatches (q : SampleQuery) (d : SampleDoc) : Bool :=
  (match q.subject with | some s => d.subject == s | none => true) &&
  (match q.topic with | some s => d.topic == s | none => true) &&
  (match q.academicLevel with | some s => d.academicLevel == s | none => true) &&
  (match q.status with | some s => d.status.toStr == s | none => true)

/-- `getSamples` result list: filter, then `skip((page-1)*limit).limit(limit)`
with `page = parseInt(...) || 1` and `limit = parseInt(...) || 10`.  The sort
stage only permutes the matching documents and is omitted. -/
def getSamples (db : List SampleDoc) (p : SampleListParams)
    (user : Option Role) : List SampleDoc :=
  let q := buildSampleQuery p user
  let page := natOr p.page 1
  let limit := natOr p.limit 10
  ((db.filter (sampleMatches q)).drop ((page - 1) * limit)).take limit

/-- Query parameters of `getServices`. -/
structure ServiceListParams where
  sectionId : Option Nat
  status : Option String
  search : Option String
  page : Option Nat
  limit : Option Nat
deriving DecidableEq, Repr

/-- The Mongo filter object `getServices` assembles. -/
structure ServiceQuery where
  sectionId : Option Nat
  status : Option String
  search : Option String
deriving DecidableEq, Repr

/-- Filter construction of `getServices` (part_005 lines 280–308): admins get
`if (status) query.status = status` (no destructuring default here), everyone
else is forced to `"Live"`. -/
def buildServiceQuery (p : ServiceListParams) (user : Option Role) : ServiceQuery :=
  { sectionId := p.sectionId,
    status := if isElevated user then truthyOpt p.status else some "Live",
    search := truthyOpt p.search }

/-- `needle` occurs as a contiguous run inside `hay`. -/
def hasSub (needle : List Char) : List Char → Bool
  | [] => startsWithChars needle []
  | h :: hs => startsWithChars needle (h :: hs) || hasSub needle hs

/-- The case-insensitive substring regex `{ $regex: search, $options: "i" }`
(for plain-text search terms). -/
def regexI (pat field : String) : Bool :=
  hasSub (pat.data.map Char.toLower) (field.data.map Char.toLower)

/-- Whether a service document satisfies the assembled filter; the `$or`
search clause spans title, subtitle and description. -/
def serviceMatches (q : ServiceQuery) (d : ServiceDoc) : Bool :=
  (match q.sectionId with | some s => d.sectionId == s | none => true) &&
  (match q.status with | some s => d.status.toStr == s | none => true) &&
  (match q.search with
   | some s => regexI s d.title || regexI s d.subtitle || regexI s d.description
   | none => true)

/-- `getServices` result list (part_005 lines 280–350): filter, then paginate
only when a truthy `limit` was supplied; otherwise the unpaginated full set.
The `sort("order")` stage only permutes the matching documents and is
omitted. -/
def getServices (db : List ServiceDoc) (p : ServiceListParams)
    (user : Option Role) : List ServiceDoc :=
  let q := buildServiceQuery p user
  let page := natOr p.page 1
  let filtered := db.filter (serviceMatches q)
  match p.limit with
  | some l => if l ≠ 0 then (filtered.drop ((page - 1) * l)).take l else filtered
  | none => filtered

/-! ## Lemmas about the slug generator -/

/-- A character of a well-formed slug: lowercase ASCII letter, digit, or hyphen. -/
def isSlugChar (c : Char) : Bool :=
  (97 ≤ c.toNat && c.toNat ≤ 122) || (48 ≤ c.toNat && c.toNat ≤ 57) || c == '-'

/-- No two adjacent characters of the list are both hyphens. -/
def noDoubleDash : List Char → Bool
  | [] => true
  | [_] => true
  | c1 :: c2 :: rest => !(c1 == '-' && c2 == '-') && noDoubleDash (c2 :: rest)

/-! ## Concrete documents and requests used by witnesses and counterexamples -/

/-- A concrete create request for the sample collection. -/
def exSampleCreateInput : SampleCreateInput :=
  { title := "Intro to Testing!", subtitle := "", description := "d",
    content := none, subject := "s", topic := "", academicLevel := "",
    wordCount := 0, referenceCount := 0, faqs := [] }

/-- A concrete testimonial create request with no status supplied. -/
def exTestimonialCreateInput : TestimonialCreateInput :=
  { name := "A", content := "B", stars := some 4, location := "",
    forHomepage := false, status := none, imageFile := none }

/-- An archived sample document used as a concrete witness input. -/
def exArchivedSample : SampleDoc :=
  { id := 3, title := "t", subtitle := "", description := "d", slug := "t",
    contentUrl := none, subject := "s", topic := "", academicLevel := "",
    wordCount := 0, referenceCount := 0, faqs := [], status := .archived }

/-- An inactive service document used as a concrete witness input. -/
def exInactiveService : ServiceDoc :=
  { id := 4, sectionId := 1, title := "w", subtitle := "", description := "d",
    slug := "w", contentUrl := none, order := 0, status := .inactive }

/-- A section and two services (one referencing it) used as witness inputs. -/
def exSection : SectionDoc :=
  { id := 1, name := "n", description := "", slug := "n", order := 0 }

/-- A service that references section 1. -/
def exServiceInSection : ServiceDoc :=
  { id := 9, sectionId := 1, title := "a", subtitle := "", description := "d",
    slug := "a", contentUrl := none, order := 0, status := .draft }

/-- A service referencing a different section (id 3). -/
def exServiceOtherSection : ServiceDoc :=
  { id := 10, sectionId := 3, title := "b", subtitle := "", description := "d",
    slug := "b", contentUrl := none, order := 0, status := .draft }

/-- A published sample with an existing content blob, used as witness input. -/
def exSampleWithContent : SampleDoc :=
  { id := 7, title := "Old title", subtitle := "s", description := "d",
    slug := "old-title", contentUrl := some "https://cdn.example/old.md",
    subject := "math", topic := "", academicLevel := "", wordCount := 100,
    referenceCount := 2, faqs := [], status := .published }

/-- An update request supplying new raw content only. -/
def exContentOnlyUpdate : SampleUpdateInput :=
  { title := none, subtitle := none, description := none,
    content := some "# new markdown body", subject := none, topic := none,
    academicLevel := none, wordCount := none, referenceCount := none,
    faqs := none, status := none }

/-- A second create request whose title normalizes to the same slug. -/
def exSampleCreateInput2 : SampleCreateInput :=
  { title := "Intro To Testing", subtitle := "", description := "d2",
    content := none, subject := "s2", topic := "", academicLevel := "",
    wordCount := 0, referenceCount := 0, faqs := [] }

/-- The document persisted by the first witness create. -/
def exCreatedSample : SampleDoc :=
  { id := 1, title := "Intro to Testing!", subtitle := "", description := "d",
    slug := "intro-to-testing", contentUrl := none, subject := "s", topic := "",
    academicLevel := "", wordCount := 0, referenceCount := 0, faqs := [],
    status := .draft }

/-- An update request changing only the title. -/
def exTitleOnlyUpdate : SampleUpdateInput :=
  { title := some "Old title!", subtitle := none, description := none,
    content := none, subject := none, topic := none, academicLevel := none,
    wordCount := none, referenceCount := none, faqs := none, status := none }

/-- The temporal ordering asserted by the spec: the old-blob delete is
attempted only after the new locator has been persisted to the database. -/
def deleteOnlyAfterPersist (tr : List Ev) : Prop :=
  ∀ i : Fin tr.length, tr.get i = .deleteOld →
    ∃ j : Fin tr.length, (j : Nat) < (i : Nat) ∧ tr.get j = .persist

/-- A live service document. -/
def exLiveService : ServiceDoc :=
  { id := 11, sectionId := 1, title := "Essay help", subtitle := "",
    description := "d", slug := "essay-help", contentUrl := none, order := 0,
    status := .live }

/-- Concrete sample list parameters requesting a Draft status filter. -/
def exSampleListParams : SampleListParams :=
  { subject := none, topic := none, academicLevel := none,
    status := some "Draft", page := none, limit := none }

/-- Concrete service list parameters requesting a Draft status filter. -/
def exServiceListParams : ServiceListParams :=
  { sectionId := none, status := some "Draft", search := none,
    page := none, limit := none }

/-- A stored testimonial with a non-empty location. -/
def exTestimonial : TestimonialDoc :=
  { id := 2, name := "Bob", content := "Nice", stars := 5,
    location := "London", imageUrl := none, status := "published",
    forHomepage := false }

/-- An update request supplying the empty string for `location` only. -/
def exLocationClearUpdate : TestimonialUpdateInput :=
  { name := none, content := none, stars := none, location := some "",
    forHomepage := none, status := none, imageFile := none }

/-- An update request supplying the empty string for the three text fields. -/
def exEmptyStringsUpdate : SampleUpdateInput :=
  { title := some "", subtitle := some "", description := some "",
    content := none, subject := none, topic := none, academicLevel := none,
    wordCount := none, referenceCount := none, faqs := none, status := none }

/-- Witness for the amended C9 at concrete updates: the empty-string update
leaves the sample's text fields unchanged, while the testimonial location is
cleared. -/

theorem charOfNat_toNat (n : Nat) (h : n < 55296) : (Char.ofNat n).toNat = n := by
  have hv : n.isValidChar := Or.inl h
  simp only [Char.ofNat, hv, dif_pos, Char.ofNatAux, Char.toNat]
  rfl

/-- `Char.toLower` on code points: add 32 exactly on `A`–`Z`. -/
theorem toLower_toNat (c : Char) :
    (Char.toLower c).toNat =
      if 65 ≤ c.toNat ∧ c.toNat ≤ 90 then c.toNat + 32 else c.toNat := by
  by_cases h : 65 ≤ c.toNat ∧ c.toNat ≤ 90
  · have he : Char.toLower c = Char.ofNat (c.toNat + 32) := by
      unfold Char.toLower; simp [h]
    rw [he, charOfNat_toNat _ (by omega), if_pos h]
  · have he : Char.toLower c = c := by
      unfold Char.toLower; simp [h]
    rw [he, if_neg h]

/-- The lower-cased character is never an uppercase ASCII letter. -/
theorem toLower_not_upper (c : Char) :
    ¬ (65 ≤ (Char.toLower c).toNat ∧ (Char.toLower c).toNat ≤ 90) := by
  rw [toLower_toNat]
  split <;> omega

/-- Lower-casing does not create or destroy whitespace. -/
theorem jsWhitespace_toLower (c : Char) :
    jsWhitespace (Char.toLower c) = jsWhitespace c := by
  simp only [jsWhitespace, toLower_toNat]
  split <;> rename_i h
  · apply Bool.eq_iff_iff.mpr
    simp only [Bool.or_eq_true, Bool.and_eq_true, decide_eq_true_eq]
    omega
  · rfl

/-- Every character emitted by `collapseAux` is a hyphen or a non-whitespace
character of the input. -/
theorem mem_collapseAux {c : Char} :
    ∀ (b : Bool) (l : List Char), c ∈ collapseAux b l →
      c = '-' ∨ (c ∈ l ∧ jsWhitespace c = false) := by
  intro b l
  induction l generalizing b with
  | nil => simp [collapseAux]
  | cons x rest ih =>
    intro hmem
    simp only [collapseAux] at hmem
    by_cases hx : jsWhitespace x
    · rw [if_pos hx] at hmem
      rcases hb : b with _ | _
      · rw [hb] at hmem
        rcases List.mem_cons.1 hmem with h1 | h1
        · exact Or.inl h1
        · rcases ih true h1 with h2 | ⟨h2, h3⟩
          · exact Or.inl h2
          · exact Or.inr ⟨List.mem_cons_of_mem _ h2, h3⟩
      · rw [hb] at hmem
        rcases ih true hmem with h2 | ⟨h2, h3⟩
        · exact Or.inl h2
        · exact Or.inr ⟨List.mem_cons_of_mem _ h2, h3⟩
    · rw [if_neg hx] at hmem
      rcases List.mem_cons.1 hmem with h1 | h1
      · exact Or.inr ⟨h1 ▸ List.mem_cons_self _ _, h1 ▸ (by simpa using hx)⟩
      · rcases ih false h1 with h2 | ⟨h2, h3⟩
        · exact Or.inl h2
        · exact Or.inr ⟨List.mem_cons_of_mem _ h2, h3⟩

/-- On whitespace-free input, collapsing is the identity. -/
theorem collapseAux_no_ws {l : List Char} (h : ∀ c ∈ l, jsWhitespace c = false) :
    ∀ b, collapseAux b l = l := by
  induction l with
  | nil => intro b; rfl
  | cons x rest ih =>
    intro b
    have hx := h x (List.mem_cons_self _ _)
    simp only [collapseAux, hx]
    simp only [Bool.false_eq_true, if_false, List.cons.injEq, true_and]
    exact ih (fun c hc => h c (List.mem_cons_of_mem _ hc)) false

/-- After a whitespace run has emitted its hyphen, the next emitted character
is a non-hyphen input character. -/
theorem collapseAux_true_head {l : List Char} (h : '-' ∉ l) :
    ∀ x xs, collapseAux true l = x :: xs → x ≠ '-' := by
  induction l with
  | nil => intro x xs hx; cases hx
  | cons c rest ih =>
    intro x xs heq
    simp only [collapseAux] at heq
    by_cases hc : jsWhitespace c
    · rw [if_pos hc] at heq
      exact ih (fun hm => h (List.mem_cons_of_mem _ hm)) x xs heq
    · rw [if_neg hc] at heq
      injection heq with hxc hxs
      intro hx
      exact h (by rw [hxc, hx]; exact List.mem_cons_self _ _)

theorem noDoubleDash_cons {c : Char} {out : List Char}
    (h1 : ∀ x xs, out = x :: xs → ¬(c = '-' ∧ x = '-'))
    (h2 : noDoubleDash out = true) : noDoubleDash (c :: out) = true := by
  match out with
  | [] => rfl
  | x :: xs =>
    have := h1 x xs rfl
    simp only [noDoubleDash, Bool.and_eq_true, Bool.not_eq_true']
    refine ⟨?_, h2⟩
    simp only [Bool.and_eq_false_iff, beq_eq_false_iff_ne, ne_eq]
    by_cases hc : c = '-'
    · exact Or.inr (fun hx => this ⟨hc, hx⟩)
    · exact Or.inl hc

/-- `collapseAux` never emits two adjacent hyphens when the input itself
contains none (as is the case after the strip stage). -/
theorem noDoubleDash_collapseAux {l : List Char} (h : '-' ∉ l) :
    ∀ b, noDoubleDash (collapseAux b l) = true := by
  induction l with
  | nil => intro b; rfl
  | cons c rest ih =>
    intro b
    have hrest : '-' ∉ rest := fun hm => h (List.mem_cons_of_mem _ hm)
    have hc : c ≠ '-' := fun hx => h (hx ▸ List.mem_cons_self _ _)
    simp only [collapseAux]
    by_cases hw : jsWhitespace c
    · rw [if_pos hw]
      rcases hb : b with _ | _
      · refine noDoubleDash_cons ?_ (ih hrest true)
        intro x xs heq hcontra
        exact collapseAux_true_head hrest x xs heq hcontra.2
      · exact ih hrest true
    · rw [if_neg hw]
      refine noDoubleDash_cons ?_ (ih hrest false)
      intro x xs _ hcontra
      exact hc hcontra.1

/-- The strip stage never lets a hyphen through. -/
theorem dash_not_mem_strip (l : List Char) : '-' ∉ stripNonAlnumSpace l := by
  intro hm
  have := (List.mem_filter.1 hm).2
  simp [isAsciiAlnum, jsWhitespace] at this

example : noDoubleDash (slugify "a   b -- c").data = true := by decide

/-! ## Claim theorems -/

/-- **C8.** For every input title, the generated slug is lowercase and contains
only characters in `[a-z0-9-]`; it never contains doubled hyphens; it is
computed exactly as lower-case, strip every character outside `[a-z0-9\s]`,
collapse each whitespace run to a single hyphen; and hyphens arise only from
whitespace runs (a whitespace-free title yields a hyphen-free slug). -/
theorem C8_slugify_wellformed (t : String) :
    (∀ c ∈ (slugify t).data, isSlugChar c = true) ∧
    noDoubleDash (slugify t).data = true ∧
    slugify t = ⟨collapseWs (stripNonAlnumSpace (t.data.map Char.toLower))⟩ ∧
    ((∀ c ∈ t.data, jsWhitespace c = false) → '-' ∉ (slugify t).data) := by
  refine ⟨?_, ?_, rfl, ?_⟩
  · intro c hc
    rcases mem_collapseAux false _ hc with h1 | ⟨h1, h2⟩
    · simp [isSlugChar, h1]
    · have h3 := (List.mem_filter.1 h1).2
      have h4 := (List.mem_filter.1 h1).1
      rcases List.mem_map.1 h4 with ⟨x, -, hx⟩
      have h5 := toLower_not_upper x
      rw [hx] at h5
      rw [← Bool.not_eq_true] at h2
      simp only [isAsciiAlnum, jsWhitespace, Bool.or_eq_true, Bool.and_eq_true,
        decide_eq_true_eq] at h3 h2
      have harith : (97 ≤ c.toNat ∧ c.toNat ≤ 122) ∨ (48 ≤ c.toNat ∧ c.toNat ≤ 57) := by
        omega
      simp only [isSlugChar, Bool.or_eq_true, Bool.and_eq_true, decide_eq_true_eq]
      rcases harith with h | h
      · exact Or.inl (Or.inl h)
      · exact Or.inl (Or.inr h)
  · exact noDoubleDash_collapseAux (dash_not_mem_strip _) false
  · intro hws hdash
    have hmap : ∀ c ∈ t.data.map Char.toLower, jsWhitespace c = false := by
      intro c hc
      rcases List.mem_map.1 hc with ⟨x, hx1, hx2⟩
      rw [← hx2, jsWhitespace_toLower]
      exact hws x hx1
    have hstrip : ∀ c ∈ stripNonAlnumSpace (t.data.map Char.toLower),
        jsWhitespace c = false :=
      fun c hc => hmap c (List.mem_filter.1 hc).1
    have heq := collapseAux_no_ws hstrip false
    have : ('-' : Char) ∈ stripNonAlnumSpace (t.data.map Char.toLower) := by
      have hd : (slugify t).data
          = collapseAux false (stripNonAlnumSpace (t.data.map Char.toLower)) := rfl
      rw [hd, heq] at hdash
      exact hdash
    exact dash_not_mem_strip _ this

/-- Witness for C8 at the concrete title `"NoSpaces1"`. -/
theorem C8_slugify_wellformed_witness :
    (∀ c ∈ (slugify "NoSpaces1").data, isSlugChar c = true) ∧
    noDoubleDash (slugify "NoSpaces1").data = true ∧
    (∀ c ∈ "NoSpaces1".data, jsWhitespace c = false) ∧
    '-' ∉ (slugify "NoSpaces1").data := by
  have h := C8_slugify_wellformed "NoSpaces1"
  exact ⟨h.1, h.2.1, by decide, h.2.2.2 (by decide)⟩

/-- **C3 counterexample.** The claim says every create persists status `Draft`
regardless of any status supplied in the input; but `createTestimonial` uses
`status: status || "draft"`, so a create that supplies `"published"` persists
`"published"`. -/
theorem C3_counterexample :
    (createTestimonial
      { name := "Jane", content := "Great service", stars := some 5,
        location := "NYC", forHomepage := false, status := some "published",
        imageFile := none } 1).map (fun d => d.status) = .ok "published" ∧
    "published" ≠ "draft" := by
  constructor
  · rfl
  · decide

/-- **C3 amended.** `createSample` persists status `Draft` regardless of input
(the handler never reads a status field); `createTestimonial` persists
`"draft"` only when the supplied status is absent or empty, and otherwise
persists the supplied status verbatim. -/
theorem C3_amended :
    (∀ (db : List SampleDoc) (inp : SampleCreateInput) (up : Except Unit String)
        (newId : Nat) (db' : List SampleDoc) (d : SampleDoc),
      createSample db inp up newId = (db', .created d) → d.status = .draft) ∧
    (∀ (inp : TestimonialCreateInput) (newId : Nat) (d : TestimonialDoc),
      createTestimonial inp newId = .ok d →
        ((inp.status = none ∨ inp.status = some "") → d.status = "draft") ∧
        (∀ s, inp.status = some s → s ≠ "" → d.status = s)) := by
  constructor
  · intro db inp up newId db' d h
    simp only [createSample] at h
    split at h
    · simp at h
    · split at h
      · simp at h
      · rw [Prod.mk.injEq] at h
        rcases h with ⟨-, h2⟩
        injection h2 with h3
        rw [← h3]
  · intro inp newId d h
    simp only [createTestimonial] at h
    split at h
    · simp at h
    · split at h
      · simp at h
      · injection h with h2
        constructor
        · intro hst
          rw [← h2]
          rcases hst with h3 | h3 <;> simp [orStr, h3]
        · intro s hs hne
          rw [← h2]
          simp [orStr, hs, hne]

/-- Witness for the amended C3 at concrete inputs. -/
theorem C3_amended_witness :
    (∃ d, (createSample [] exSampleCreateInput (.ok "u") 1).2 = .created d ∧
      d.status = .draft) ∧
    (∃ d, createTestimonial exTestimonialCreateInput 2 = .ok d ∧
      d.status = "draft") := by
  constructor
  · refine ⟨_, rfl, ?_⟩
    exact C3_amended.1 [] exSampleCreateInput (.ok "u") 1 _ _ rfl
  · refine ⟨_, rfl, ?_⟩
    exact (C3_amended.2 exTestimonialCreateInput 2 _ rfl).1 (Or.inl rfl)

/-- `findByIdAndUpdate` after an id-preserving per-document update: looking the
id up in the rewritten list finds the rewritten document. -/
theorem findBlog_map_update (db : List BlogDoc) (id : Nat) (f : BlogDoc → BlogDoc)
    (hf : ∀ e, (f e).id = e.id) :
    ∀ b, db.find? (fun e => e.id == id) = some b →
      (db.map (fun e => if e.id == id then f e else e)).find? (fun e => e.id == id)
        = some (f b) := by
  induction db with
  | nil => intro b h; cases h
  | cons x rest ih =>
    intro b h
    cases hx : x.id == id with
    | false =>
      simp only [List.find?_cons, hx] at h
      simp only [List.map_cons, hx, Bool.false_eq_true, if_false, List.find?_cons]
      exact ih b h
    | true =>
      simp only [List.find?_cons, hx] at h
      injection h with hb
      have hfx : ((f x).id == id) = true := by rw [hf]; exact hx
      simp only [List.map_cons, hx, if_true, List.find?_cons, hfx]
      rw [hb]

/-- **C2 counterexample.** The claim says the first toggle out of `Draft` sets
the publication timestamp; but `toggleBlogStatus` writes only the status
path, so a Draft blog with no timestamp toggles to Published with
`datePublished` still unset. -/
theorem C2_counterexample :
    toggleBlogStatus [{ id := 1, status := .draft, datePublished := none }] 1
      = ([{ id := 1, status := .published, datePublished := none }], .ok,
          some { id := 1, status := .published, datePublished := none }) := by
  rfl

/-- **C2 amended.** Starting at `Draft`, toggle yields `Published` and a second
toggle returns to `Draft`; the toggles never modify the publication
timestamp.  The timestamp is stamped only by the blog update handler, when an
elevated caller supplies `Published` while it is unset, and once set it is
never overwritten by any later status update. -/
theorem C2_toggle_behaviour (db : List BlogDoc) (id : Nat) (b : BlogDoc)
    (hfind : db.find? (fun e => e.id == id) = some b)
    (hdraft : b.status = .draft) :
    (toggleBlogStatus db id).2 = (.ok, some { b with status := .published }) ∧
    (toggleBlogStatus (toggleBlogStatus db id).1 id).2
      = (.ok, some { b with status := .draft }) ∧
    (∀ (bb : BlogDoc) (st : Option SampleStatus) (user : Option Role) (now d : Nat),
      bb.datePublished = some d →
      (updateBlogStatusStep bb st user now).datePublished = some d) ∧
    (∀ (bb : BlogDoc) (user : Option Role) (now : Nat), isElevated user = true →
      bb.datePublished = none →
      (updateBlogStatusStep bb (some .published) user now).datePublished = some now) := by
  have h1 : toggleBlogStatus db id
      = (db.map (fun e => if e.id == id then { e with status := .published } else e),
         .ok, some { b with status := .published }) := by
    simp only [toggleBlogStatus, hfind, hdraft]
    rfl
  refine ⟨by rw [h1], ?_, ?_, ?_⟩
  · have h2 := findBlog_map_update db id
      (fun e => { e with status := .published }) (fun e => rfl) b hfind
    rw [h1]
    simp only [toggleBlogStatus, h2]
    rfl
  · intro bb st user now d hset
    simp only [updateBlogStatusStep]
    rcases st with _ | st
    · exact hset
    · rcases hu : isElevated user with _ | _
      · simp only [Bool.false_eq_true, if_false]
        exact hset
      · simp only [if_true]
        split
        · rename_i hcontra
          rw [hset] at hcontra
          cases hcontra.2
        · exact hset
  · intro bb user now hu hunset
    simp only [updateBlogStatusStep, hu, if_true]
    split
    · rfl
    · rename_i hcontra
      exact absurd ⟨by trivial, hunset⟩ hcontra

/-- Witness for the amended C2 at a concrete one-blog database. -/
theorem C2_toggle_behaviour_witness :
    (toggleBlogStatus [{ id := 5, status := .draft, datePublished := none }] 5).2
      = (.ok, some { id := 5, status := .published, datePublished := none }) ∧
    (updateBlogStatusStep { id := 5, status := .draft, datePublished := none }
        (some .published) (some .admin) 42).datePublished = some 42 := by
  have h := C2_toggle_behaviour
    [{ id := 5, status := .draft, datePublished := none }] 5
    { id := 5, status := .draft, datePublished := none } rfl rfl
  exact ⟨h.1, h.2.2.2 { id := 5, status := .draft, datePublished := none }
    (some .admin) 42 rfl rfl⟩

/-- **C7.** Toggling an entity in a terminal/side state — `Archived` for
samples, `Inactive` or `Coming_Soon` for services — fails with the
illegal-transition error and leaves the database (hence the entity's status)
unchanged. -/
theorem C7_toggle_terminal (dbS : List SampleDoc) (dbV : List ServiceDoc)
    (idS idV : Nat) (s : SampleDoc) (v : ServiceDoc)
    (hs : findSample dbS idS = some s) (hsa : s.status = .archived)
    (hv : dbV.find? (fun e => e.id == idV) = some v)
    (hva : v.status = .inactive ∨ v.status = .comingSoon) :
    toggleSampleStatus dbS idS = (dbS, .illegal, none) ∧
    toggleServiceStatus dbV idV = (dbV, .illegal, none) := by
  constructor
  · simp only [toggleSampleStatus, hs]
    rw [if_pos hsa]
  · simp only [toggleServiceStatus, hv]
    rw [if_pos hva]

/-- Witness for C7 at concrete one-document databases. -/
theorem C7_toggle_terminal_witness :
    toggleSampleStatus [exArchivedSample] 3 = ([exArchivedSample], .illegal, none) ∧
    toggleServiceStatus [exInactiveService] 4 = ([exInactiveService], .illegal, none) :=
  C7_toggle_terminal [exArchivedSample] [exInactiveService] 3 4
    exArchivedSample exInactiveService rfl rfl rfl (Or.inl rfl)

/-- **C10.** Deleting a service section is refused (with the database
unchanged) while any service references the section; consequently a delete
that succeeds implies that no service references the deleted section. -/
theorem C10_deleteSection_guard (sections : List SectionDoc)
    (services : List ServiceDoc) (id : Nat) :
    ((∃ s ∈ services, s.sectionId = id) →
      deleteSection sections services id = (sections, .hasServices)) ∧
    ((deleteSection sections services id).2 = .ok →
      ∀ s ∈ services, s.sectionId ≠ id) := by
  have hguard : (∃ s ∈ services, s.sectionId = id) →
      deleteSection sections services id = (sections, .hasServices) := by
    rintro ⟨s, hs, hsec⟩
    have hmem : s ∈ services.filter (fun e => e.sectionId == id) :=
      List.mem_filter.2 ⟨hs, by simp [hsec]⟩
    have hpos : 0 < (services.filter (fun e => e.sectionId == id)).length :=
      List.length_pos.2 (List.ne_nil_of_mem hmem)
    simp only [deleteSection]
    rw [if_pos hpos]
  refine ⟨hguard, ?_⟩
  intro hok s hs hsec
  rw [hguard ⟨s, hs, hsec⟩] at hok
  cases hok

/-- Witness for C10: the delete is refused while a referencing service exists,
and a successful delete implies no service references the section. -/
theorem C10_deleteSection_guard_witness :
    deleteSection [exSection] [exServiceInSection] 1 = ([exSection], .hasServices) ∧
    (∀ s ∈ [exServiceOtherSection], s.sectionId ≠ 1) := by
  constructor
  · exact (C10_deleteSection_guard [exSection] [exServiceInSection] 1).1
      ⟨exServiceInSection, by decide, rfl⟩
  · exact (C10_deleteSection_guard [exSection] [exServiceOtherSection] 1).2 rfl

/-- **C4.** If an update supplies new raw (non-URL) content and the upload to
the external store fails, the handler returns the upload error with the
database unchanged — the entity's `contentUrl` and every other field keep
their prior values — and the event trace is empty, so no delete of the old
blob occurred. -/
theorem C4_upload_failure_no_mutation (db : List SampleDoc) (id : Nat)
    (inp : SampleUpdateInput) (user : Option Role) (s0 s1 : SampleDoc) (c : String)
    (hfind : findSample db id = some s0)
    (hslug : slugUpdateStep db id s0 inp.title = some s1)
    (hcontent : inp.content = some c)
    (hraw : jsStartsWith c "http" = false) :
    updateSample db id inp user (.error ()) = (db, .uploadError, []) ∧
    Ev.deleteOld ∉ (updateSample db id inp user (.error ())).2.2 := by
  have h : updateSample db id inp user (.error ()) = (db, .uploadError, []) := by
    simp only [updateSample, hfind, hslug, contentUpdateStep, hcontent, hraw,
      Bool.false_eq_true, if_false]
  refine ⟨h, ?_⟩
  rw [h]
  simp

/-- Witness for C4 at a concrete database and update request. -/
theorem C4_upload_failure_no_mutation_witness :
    updateSample [exSampleWithContent] 7 exContentOnlyUpdate (some .admin)
      (.error ()) = ([exSampleWithContent], .uploadError, []) ∧
    Ev.deleteOld ∉ (updateSample [exSampleWithContent] 7 exContentOnlyUpdate
      (some .admin) (.error ())).2.2 :=
  C4_upload_failure_no_mutation [exSampleWithContent] 7 exContentOnlyUpdate
    (some .admin) exSampleWithContent exSampleWithContent "# new markdown body"
    rfl rfl rfl (by decide)

/-- The slug-uniqueness check of the update handler excludes the entity
itself, so it cannot fail when every document carrying the new slug is the
updated document. -/
theorem slugUpdateStep_excludes_self (dbu : List SampleDoc) (idu : Nat)
    (s0 : SampleDoc) (t : String)
    (hexcl : ∀ e ∈ dbu, e.slug = slugify t → e.id = idu) :
    slugUpdateStep dbu idu s0 (some t) ≠ none := by
  simp only [slugUpdateStep]
  split
  · split
    · rename_i hany
      exfalso
      rcases List.any_eq_true.1 hany with ⟨e, he, hcond⟩
      simp only [Bool.and_eq_true, beq_iff_eq, bne_iff_ne, ne_eq] at hcond
      exact hcond.2 (hexcl e he hcond.1)
    · exact fun h => Option.noConfusion h
  · exact fun h => Option.noConfusion h

/-- **C6.** When two create requests normalize to the same slug, the second
create fails with the Conflict error and leaves the database — including the
first entity — unchanged; and on update, the uniqueness check excludes the
entity being updated, so a title whose slug is carried only by the updated
document itself never produces a Conflict. -/
theorem C6_slug_conflict (db db1 : List SampleDoc) (i1 i2 : SampleCreateInput)
    (up1 up2 : Except Unit String) (id1 id2 : Nat) (d1 : SampleDoc)
    (hslug : slugify i1.title = slugify i2.title)
    (h1 : createSample db i1 up1 id1 = (db1, .created d1)) :
    createSample db1 i2 up2 id2 = (db1, .conflict) ∧ d1 ∈ db1 ∧
    (∀ (dbu : List SampleDoc) (idu : Nat) (s0 : SampleDoc)
        (inp : SampleUpdateInput) (user : Option Role) (upl : Except Unit String)
        (t : String),
      findSample dbu idu = some s0 → inp.title = some t →
      (∀ e ∈ dbu, e.slug = slugify t → e.id = idu) →
      (updateSample dbu idu inp user upl).2.1 ≠ .conflict) := by
  have hdb1 : db1 = db ++ [d1] ∧ d1.slug = slugify i1.title := by
    simp only [createSample] at h1
    split at h1
    · simp at h1
    · split at h1
      · simp at h1
      · rw [Prod.mk.injEq] at h1
        rcases h1 with ⟨hl, hr⟩
        injection hr with hr
        constructor
        · rw [← hl, ← hr]
        · rw [← hr]
  rcases hdb1 with ⟨hdb1, hslug1⟩
  have hmem : d1 ∈ db1 := by
    rw [hdb1]; exact List.mem_append_right _ (List.mem_cons_self _ _)
  refine ⟨?_, hmem, ?_⟩
  · have hany : db1.any (fun e => e.slug == slugify i2.title) = true :=
      List.any_eq_true.2 ⟨d1, hmem, by rw [beq_iff_eq, hslug1, hslug]⟩
    simp only [createSample]
    rw [if_pos hany]
  · intro dbu idu s0 inp user upl t hfind htitle hexcl
    rcases hss : slugUpdateStep dbu idu s0 inp.title with _ | s1
    · rw [htitle] at hss
      exact absurd hss (slugUpdateStep_excludes_self dbu idu s0 t hexcl)
    · simp only [updateSample, hfind, hss]
      rcases hcs : contentUpdateStep s1 inp.content upl with _ | ⟨cu, evs⟩
      · exact fun h => UpdResult.noConfusion h
      · exact fun h => UpdResult.noConfusion h

/-- Witness for C6 at concrete create requests (`"Intro to Testing!"` vs
`"Intro To Testing"`, both yielding `"intro-to-testing"`), and a concrete
self-colliding title update. -/
theorem C6_slug_conflict_witness :
    createSample [exCreatedSample] exSampleCreateInput2 (.ok "u") 2
      = ([exCreatedSample], .conflict) ∧
    (updateSample [exSampleWithContent] 7 exTitleOnlyUpdate (some .admin)
      (.ok "u")).2.1 ≠ .conflict := by
  have h := C6_slug_conflict [] [exCreatedSample] exSampleCreateInput
    exSampleCreateInput2 (.ok "u") (.ok "u") 1 2 exCreatedSample
    (by decide) (by decide)
  refine ⟨h.1, ?_⟩
  exact h.2.2 [exSampleWithContent] 7 exSampleWithContent exTitleOnlyUpdate
    (some .admin) (.ok "u") "Old title!" rfl rfl (by decide)

/-- **C1 counterexample.** A successful content replacement produces the trace
upload-new, delete-old, persist: the delete of the old blob happens *before*
the new locator is persisted, so the claimed order (persist before delete) is
violated. -/
theorem C1_counterexample :
    (updateSample [exSampleWithContent] 7 exContentOnlyUpdate (some .admin)
        (.ok "https://cdn.example/new.md")).2.2
      = [.uploadNew, .deleteOld, .persist] ∧
    ¬ deleteOnlyAfterPersist [.uploadNew, .deleteOld, .persist] := by
  constructor
  · decide
  · unfold deleteOnlyAfterPersist
    decide

/-- The content step emits one of three event prefixes: nothing, a bare
upload, or an upload followed by the old-blob delete. -/
theorem contentUpdateStep_evs (s1 : SampleDoc) (content : Option String)
    (upload : Except Unit String) (cu : Option String) (evs : List Ev)
    (h : contentUpdateStep s1 content upload = some (cu, evs)) :
    evs = [] ∨ evs = [.uploadNew] ∨ evs = [.uploadNew, .deleteOld] := by
  simp only [contentUpdateStep] at h
  split at h
  · injection h with h; injection h with h1 h2; rw [← h2]; exact Or.inl rfl
  · split at h
    · injection h with h; injection h with h1 h2; rw [← h2]; exact Or.inl rfl
    · split at h
      · cases h
      · split at h
        · injection h with h; injection h with h1 h2; rw [← h2]
          exact Or.inr (Or.inr rfl)
        · injection h with h; injection h with h1 h2; rw [← h2]
          exact Or.inr (Or.inl rfl)

/-- **C1 amended.** On a sample update, whenever the old-blob delete is
attempted at all, the emitted trace is exactly upload-new, delete-old,
persist: the delete comes strictly after the successful upload of the new
blob and strictly *before* the database persist of the new locator (not
after it, as the spec states). -/
theorem C1_replacement_order (db : List SampleDoc) (id : Nat)
    (inp : SampleUpdateInput) (user : Option Role) (upload : Except Unit String)
    (hdel : Ev.deleteOld ∈ (updateSample db id inp user upload).2.2) :
    (updateSample db id inp user upload).2.2
      = [.uploadNew, .deleteOld, .persist] := by
  rcases hf : findSample db id with _ | s0
  · simp only [updateSample, hf] at hdel
    cases hdel
  · rcases hs : slugUpdateStep db id s0 inp.title with _ | s1
    · simp only [updateSample, hf, hs] at hdel
      cases hdel
    · rcases hc : contentUpdateStep s1 inp.content upload with _ | ⟨cu, evs⟩
      · simp only [updateSample, hf, hs, hc] at hdel
        cases hdel
      · simp only [updateSample, hf, hs, hc] at hdel ⊢
        rcases contentUpdateStep_evs s1 inp.content upload cu evs hc
          with hevs | hevs | hevs <;> rw [hevs] at hdel ⊢
        · simp at hdel
        · simp at hdel
        · rfl

/-- Witness for the amended C1 at the concrete replacement run of the
counterexample. -/
theorem C1_replacement_order_witness :
    (updateSample [exSampleWithContent] 7 exContentOnlyUpdate (some .admin)
        (.ok "https://cdn.example/new.md")).2.2
      = [.uploadNew, .deleteOld, .persist] :=
  C1_replacement_order [exSampleWithContent] 7 exContentOnlyUpdate
    (some .admin) (.ok "https://cdn.example/new.md") (by decide)

theorem sampleStatus_eq_published (s : SampleStatus) (h : s.toStr = "Published") :
    s = .published := by
  cases s
  · exact absurd h (by decide)
  · rfl
  · exact absurd h (by decide)

theorem serviceStatus_eq_live (s : ServiceStatus) (h : s.toStr = "Live") :
    s = .live := by
  cases s
  · exact absurd h (by decide)
  · rfl
  · exact absurd h (by decide)
  · exact absurd h (by decide)

/-- **C5.** Every entity returned by a list request from an unauthenticated or
non-elevated caller has the publicly visible status (`Published` for samples,
`Live` for services) regardless of the status filter supplied; elevated
callers get a filter on exactly the (non-empty) status they request. -/
theorem C5_public_status_restriction :
    (∀ (db : List SampleDoc) (p : SampleListParams) (user : Option Role)
        (d : SampleDoc),
      isElevated user = false → d ∈ getSamples db p user →
      d.status = .published) ∧
    (∀ (db : List ServiceDoc) (p : ServiceListParams) (user : Option Role)
        (d : ServiceDoc),
      isElevated user = false → d ∈ getServices db p user →
      d.status = .live) ∧
    (∀ (p : SampleListParams) (st : String), p.status = some st → st ≠ "" →
      (buildSampleQuery p (some .admin)).status = some st) ∧
    (∀ (p : ServiceListParams) (st : String), p.status = some st → st ≠ "" →
      (buildServiceQuery p (some .admin)).status = some st) := by
  refine ⟨?_, ?_, ?_, ?_⟩
  · intro db p user d hu hmem
    simp only [getSamples] at hmem
    have hmem2 : d ∈ db.filter (sampleMatches (buildSampleQuery p user)) :=
      List.drop_subset _ _ (List.take_subset _ _ hmem)
    have hm := (List.mem_filter.1 hmem2).2
    have hq : (buildSampleQuery p user).status = some "Published" := by
      simp [buildSampleQuery, hu]
    simp only [sampleMatches, hq, Bool.and_eq_true, beq_iff_eq] at hm
    exact sampleStatus_eq_published d.status hm.2
  · intro db p user d hu hmem
    have hq : (buildServiceQuery p user).status = some "Live" := by
      simp [buildServiceQuery, hu]
    have hmem2 : d ∈ db.filter (serviceMatches (buildServiceQuery p user)) := by
      simp only [getServices] at hmem
      rcases hpl : p.limit with _ | l
      · rw [hpl] at hmem
        exact hmem
      · rw [hpl] at hmem
        split at hmem
        · split at hmem
          · exact List.drop_subset _ _ (List.take_subset _ _ hmem)
          · exact hmem
        · exact hmem
    have hm := (List.mem_filter.1 hmem2).2
    simp only [serviceMatches, hq, Bool.and_eq_true, beq_iff_eq] at hm
    exact serviceStatus_eq_live d.status hm.1.2
  · intro p st hst hne
    simp [buildSampleQuery, isElevated, hst, truthyOpt, hne]
  · intro p st hst hne
    simp [buildServiceQuery, isElevated, hst, truthyOpt, hne]

/-- Witness for C5 at concrete databases and query parameters: a non-elevated
caller requesting Draft still only sees the public status, while the admin
query carries the requested filter. -/
theorem C5_public_status_restriction_witness :
    exSampleWithContent.status = .published ∧
    exLiveService.status = .live ∧
    (buildSampleQuery exSampleListParams (some .admin)).status = some "Draft" ∧
    (buildServiceQuery exServiceListParams (some .admin)).status = some "Draft" := by
  refine ⟨?_, ?_, ?_, ?_⟩
  · exact C5_public_status_restriction.1 [exSampleWithContent]
      exSampleListParams none exSampleWithContent rfl (by decide)
  · exact C5_public_status_restriction.2.1 [exLiveService]
      exServiceListParams none exLiveService rfl (by decide)
  · exact C5_public_status_restriction.2.2.1 exSampleListParams "Draft" rfl
      (by decide)
  · exact C5_public_status_restriction.2.2.2 exServiceListParams "Draft" rfl
      (by decide)

/-- **C9 counterexample.** The claim says supplying the empty string for a
text field leaves the stored field unchanged; but `updateTestimonial` assigns
`location` under `location !== undefined ? location : …`, so an explicit
empty string *clears* the stored location. -/
theorem C9_counterexample :
    updateTestimonial [exTestimonial] 2 exLocationClearUpdate
      = ([{ exTestimonial with location := "" }],
         .ok { exTestimonial with location := "" }) ∧
    exTestimonial.location = "London" := by
  exact ⟨by decide, rfl⟩

/-- The slug step never touches the text fields. -/
theorem slugUpdateStep_preserves (db : List SampleDoc) (id : Nat)
    (s0 s1 : SampleDoc) (title : Option String)
    (h : slugUpdateStep db id s0 title = some s1) :
    s1.title = s0.title ∧ s1.subtitle = s0.subtitle ∧
    s1.description = s0.description := by
  simp only [slugUpdateStep] at h
  split at h
  · injection h with h; rw [← h]; exact ⟨rfl, rfl, rfl⟩
  · split at h
    · split at h
      · cases h
      · injection h with h; rw [← h]; exact ⟨rfl, rfl, rfl⟩
    · injection h with h; rw [← h]; exact ⟨rfl, rfl, rfl⟩

/-- The contentUrl assignment never touches the text fields. -/
theorem applyContentUrl_fields (s : SampleDoc) (cu : Option String) :
    (applyContentUrl s cu).title = s.title ∧
    (applyContentUrl s cu).subtitle = s.subtitle ∧
    (applyContentUrl s cu).description = s.description := by
  cases cu <;> exact ⟨rfl, rfl, rfl⟩

/-- **C9 amended.** Fields assigned with the `x || existing` pattern (sample
title, subtitle, description) keep their stored value when the update
supplies the empty string; but fields assigned with the
`x !== undefined ? x : existing` pattern (testimonial location) take the
supplied value even when it is the empty string, so such a field *can* be
cleared through update. -/
theorem C9_empty_string_updates :
    (∀ (db : List SampleDoc) (id : Nat) (inp : SampleUpdateInput)
        (user : Option Role) (upload : Except Unit String) (s0 : SampleDoc)
        (db' : List SampleDoc) (d : SampleDoc) (tr : List Ev),
      findSample db id = some s0 →
      updateSample db id inp user upload = (db', .ok d, tr) →
      (inp.title = some "" → d.title = s0.title) ∧
      (inp.subtitle = some "" → d.subtitle = s0.subtitle) ∧
      (inp.description = some "" → d.description = s0.description)) ∧
    (∀ (db : List TestimonialDoc) (id : Nat) (inp : TestimonialUpdateInput)
        (t0 : TestimonialDoc) (db' : List TestimonialDoc) (d : TestimonialDoc)
        (loc : String),
      db.find? (fun e => e.id == id) = some t0 →
      inp.location = some loc →
      updateTestimonial db id inp = (db', .ok d) →
      d.location = loc) := by
  constructor
  · intro db id inp user upload s0 db' d tr hfind hupd
    rcases hs : slugUpdateStep db id s0 inp.title with _ | s1
    · simp only [updateSample, hfind, hs] at hupd
      simp at hupd
    · rcases hc : contentUpdateStep s1 inp.content upload with _ | ⟨cu, evs⟩
      · simp only [updateSample, hfind, hs, hc] at hupd
        simp at hupd
      · simp only [updateSample, hfind, hs, hc] at hupd
        rw [Prod.mk.injEq, Prod.mk.injEq] at hupd
        rcases hupd with ⟨-, h2, -⟩
        injection h2 with h2
        have hpres := slugUpdateStep_preserves db id s0 s1 inp.title hs
        have happ := applyContentUrl_fields s1 cu
        refine ⟨?_, ?_, ?_⟩ <;> intro hin <;> rw [← h2]
        · show orStr inp.title (applyContentUrl s1 cu).title = s0.title
          rw [hin, happ.1, hpres.1]
          rfl
        · show orStr inp.subtitle (applyContentUrl s1 cu).subtitle = s0.subtitle
          rw [hin, happ.2.1, hpres.2.1]
          rfl
        · show orStr inp.description (applyContentUrl s1 cu).description
            = s0.description
          rw [hin, happ.2.2, hpres.2.2]
          rfl
  · intro db id inp t0 db' d loc hfind hloc hupd
    have hfields : updateTestimonialFields db id inp t0 = (db', .ok d) →
        d.location = loc := by
      intro h
      simp only [updateTestimonialFields] at h
      rw [Prod.mk.injEq] at h
      rcases h with ⟨-, h2⟩
      injection h2 with h2
      rw [← h2]
      show inp.location.getD _ = loc
      rw [hloc]
      rfl
    rcases hst : inp.stars with _ | s
    · simp only [updateTestimonial, hfind, hst] at hupd
      exact hfields hupd
    · simp only [updateTestimonial, hfind, hst] at hupd
      split at hupd
      · simp at hupd
      · exact hfields hupd

/-- Witness for the amended C9 at concrete updates: the empty-string update
leaves the sample's text fields unchanged, while the testimonial location is
cleared. -/
theorem C9_empty_string_updates_witness :
    ((updateSample [exSampleWithContent] 7 exEmptyStringsUpdate (some .admin)
        (.ok "u") = ([exSampleWithContent], .ok exSampleWithContent, [.persist])) ∧
      exSampleWithContent.title = "Old title") ∧
    (∃ d, updateTestimonial [exTestimonial] 2 exLocationClearUpdate
        = ([{ exTestimonial with location := "" }], .ok d) ∧ d.location = "") := by
  refine ⟨⟨by decide, rfl⟩, ⟨{ exTestimonial with location := "" }, by decide, ?_⟩⟩
  exact C9_empty_string_updates.2 [exTestimonial] 2 exLocationClearUpdate
    exTestimonial [{ exTestimonial with location := "" }]
    { exTestimonial with location := "" } "" rfl rfl (by decide)

end StrDra
